import Mathlib

/-!
Verification of the timekeeping core declared in `src/idOS/arch/avr/timer_arch.h`
(repository bernardoyla/idos).  The header defines the build-time constants
`F_CPU`, `FM_CPU`, `TIMER_PRESCALER`, the unit-conversion macros `MSEC_TO_CLK`,
`USEC_TO_CLK`, the maximum one-shot span `MAX_USEC`, and the interrupt
enable/disable macros `SEI_TIMER` / `CLI_TIMER`.  All C arithmetic in these
macros is carried out in unsigned 32-bit (`unsigned long` on AVR), embedded
here as `Nat` with explicit `% 2^32` where the C type would wrap.

The implementations of `u_now`, `m_now` and the one-shot scheduler live in a
`.c` file that is not part of the repository snapshot (only their declarations
appear in the header), so those operations are modelled from the spec; each
such definition says so in its doc comment.
-/

namespace idOS

/-- Source: `#define F_CPU 16000000UL` (timer_arch.h line 27). -/
def F_CPU : Nat := 16000000

/-- Source: `#define FM_CPU (F_CPU / 1000000L)` (timer_arch.h line 33). -/
def FM_CPU : Nat := F_CPU / 1000000

/-- Source: `#define TIMER_PRESCALER 64` (timer_arch.h line 55). -/
def TIMER_PRESCALER : Nat := 64

/-- Source: `#define MSEC_TO_CLK(msec) (msec * F_CPU) / (1000UL * TIMER_PRESCALER)`
(timer_arch.h lines 60-61).  The multiplication is performed in 32-bit
unsigned arithmetic before the division, so the product wraps modulo `2^32`;
the argument itself is a 32-bit unsigned value. -/
def MSEC_TO_CLK (msec : Nat) : Nat :=
  ((msec % 2 ^ 32) * F_CPU % 2 ^ 32) / (1000 * TIMER_PRESCALER)

/-- Source: `#define USEC_TO_CLK(usec) (usec * FM_CPU) / TIMER_PRESCALER`
(timer_arch.h lines 72-73), in 32-bit unsigned arithmetic. -/
def USEC_TO_CLK (usec : Nat) : Nat :=
  ((usec % 2 ^ 32) * FM_CPU % 2 ^ 32) / TIMER_PRESCALER

/-- Source: `#define CLK_CYCLES_PER_USEC (TIMER_PRESCALER / FM_CPU)`
(timer_arch.h line 93): microseconds per timer-counter increment, i.e. the
tick period, for prescalers of 64 and above. -/
def CLK_CYCLES_PER_USEC : Nat := TIMER_PRESCALER / FM_CPU

/-- Source: `#define MAX_USEC 0xFFFFUL * TIMER_PRESCALER / FM_CPU`
(timer_arch.h lines 97-98), in 32-bit unsigned arithmetic: the maximum number
of microseconds representable in one full 16-bit cycle of Timer1. -/
def MAX_USEC : Nat := (0xFFFF * TIMER_PRESCALER % 2 ^ 32) / FM_CPU

/-- The Timer1 interrupt-control registers touched by `SEI_TIMER` and
`CLI_TIMER`: the interrupt-flag register `TIFR1` and the interrupt-mask
register `TIMSK1`, each an 8-bit hardware register. -/
structure TimerRegs where
  tifr1 : Nat
  timsk1 : Nat
  deriving DecidableEq, Repr

/-- A store to the AVR interrupt-flag register `TIFR1`.  Per the AVR hardware
semantics of timer interrupt-flag registers, writing a logical one to a flag
bit clears that flag, so the bits set in the written value are cleared and the
rest are left unchanged. -/
def writeTIFR1 (v : Nat) (s : TimerRegs) : TimerRegs :=
  { s with tifr1 := s.tifr1 &&& (255 ^^^ (v % 256)) }

/-- A store to the interrupt-mask register `TIMSK1` (an ordinary read/write
register: the written value replaces the contents). -/
def writeTIMSK1 (v : Nat) (s : TimerRegs) : TimerRegs :=
  { s with timsk1 := v % 256 }

/-- Source: `#define SEI_TIMER() TIFR1 = 0xFF; TIMSK1 = 2`
(timer_arch.h lines 106-108): first clear all Timer1 interrupt flags, then
enable the Compare-A interrupt (OCIE1A, bit 1). -/
def SEI_TIMER (s : TimerRegs) : TimerRegs :=
  writeTIMSK1 2 (writeTIFR1 0xFF s)

/-- Source: `#define CLI_TIMER() TIFR1 = 0xFF; (TIMSK1 = 0)`
(timer_arch.h lines 115-117): clear all Timer1 interrupt flags, then disable
all Timer1 interrupts. -/
def CLI_TIMER (s : TimerRegs) : TimerRegs :=
  writeTIMSK1 0 (writeTIFR1 0xFF s)

/-- The clock state read inside one critical section: the software millisecond
accumulator (a 32-bit `mtime_t`, timer_arch.h line 20) together with the
16-bit hardware count `TCNT1` sampled in the same critical section. -/
structure ClockState where
  accumulated_ms : Nat
  tcnt1 : Nat
  deriving DecidableEq, Repr

/-- Modelled from the spec: `now_ms()` "returns `accumulated_ms`"; the
implementation of `m_now` is not in the repository (timer_arch.h line 145
only declares it).  The result has type `mtime_t = uint32_t`. -/
def m_now (s : ClockState) : Nat :=
  s.accumulated_ms % 2 ^ 32

/-- Modelled from the spec: `now_us()` is "computed as
`accumulated_ms * 1000 + (sub_ms_ticks_from_hardware_count * tick_period_us)`",
with the hardware count sampled in the same critical section as
`accumulated_ms`; the implementation of `u_now` is not in the repository
(timer_arch.h line 138 only declares it).  The tick period is
`CLK_CYCLES_PER_USEC` microseconds and the result is a 32-bit `utime_t`. -/
def u_now (s : ClockState) : Nat :=
  (s.accumulated_ms % 2 ^ 32 * 1000 + s.tcnt1 % 2 ^ 16 * CLK_CYCLES_PER_USEC) % 2 ^ 32

/-- Modelled from the spec: the interrupt-driven advance "increments
`accumulated_ms` by the fixed millisecond-per-interrupt period", in unsigned
modular 32-bit arithmetic ("overflow of `accumulated_ms` is expected
behavior"); the handler code is not in the repository. -/
def advance_ms (ms inc : Nat) : Nat :=
  (ms + inc) % 2 ^ 32

/-- The state of the pending one-shot request: how many full hardware
intervals remain, the tick span of the final partial interval, how many times
the callback has been invoked, and whether the compare interrupt is armed. -/
structure OneShot where
  remaining_intervals : Nat
  final_interval : Nat
  fired : Nat
  armed : Bool
  deriving DecidableEq, Repr

/-- Modelled from the spec: `schedule` "decomposes the requested delay into
`remaining_intervals = delay / MAX_REPRESENTABLE_INTERVAL` full hardware
cycles plus a final partial interval" and transitions to `ARMED`; the
scheduler implementation is not in the repository (timer_arch.h line 152 only
declares `rtimer_init_arch`). -/
def schedule (delay : Nat) : OneShot :=
  { remaining_intervals := delay / MAX_USEC
    final_interval := delay % MAX_USEC
    fired := 0
    armed := true }

/-- Modelled from the spec: the compare-match handler while `ARMED` — "if
`remaining_intervals > 0`, decrements it ... and remains `ARMED`; if this was
the final interval, disables the interrupt, invokes the callback exactly once,
and transitions to `IDLE`"; the handler code is not in the repository. -/
def handleInterrupt (s : OneShot) : OneShot :=
  if s.armed then
    if 0 < s.remaining_intervals then
      { s with remaining_intervals := s.remaining_intervals - 1 }
    else
      { s with fired := s.fired + 1, armed := false }
  else s

/-- The one-shot state after `n` compare-match interrupts starting from `s`. -/
def run : Nat → OneShot → OneShot
  | 0, s => s
  | n + 1, s => run n (handleInterrupt s)

/-- The number of hardware compare intervals a scheduled delay occupies: the
full cycles plus the final partial interval. -/
def totalIntervals (delay : Nat) : Nat :=
  delay / MAX_USEC + 1

theorem MAX_USEC_eq : MAX_USEC = 262140 := by decide

theorem run_full_cycles (r f : Nat) :
    run (r + 1) { remaining_intervals := r, final_interval := f,
                  fired := 0, armed := true } =
      { remaining_intervals := 0, final_interval := f,
        fired := 1, armed := false } := by
  induction r with
  | zero => simp [run, handleInterrupt]
  | succ n ih =>
      show run (n + 1) (handleInterrupt _) = _
      simpa [handleInterrupt] using ih

/-- C3: with F_CPU = 16000000 and TIMER_PRESCALER = 64 as fixed in the source,
the tick period CLK_CYCLES_PER_USEC is 4 microseconds and MAX_USEC evaluates
exactly to 262140 microseconds, i.e. 65535 ticks times 4 us, with no
intermediate overflow in the unsigned product 0xFFFF * 64 (which is 4194240,
below 2^32). -/
theorem C3_max_usec_value :
    CLK_CYCLES_PER_USEC = 4 ∧
    MAX_USEC = 262140 ∧
    MAX_USEC = 65535 * CLK_CYCLES_PER_USEC ∧
    0xFFFF * TIMER_PRESCALER = 4194240 ∧
    0xFFFF * TIMER_PRESCALER < 2 ^ 32 ∧
    MAX_USEC = 0xFFFF * TIMER_PRESCALER / FM_CPU := by
  refine ⟨by decide, by decide, by decide, by decide, by decide, by decide⟩

/-- C4: USEC_TO_CLK truncates: whenever usec * FM_CPU fits in 32 bits it
equals usec * 16 / 64 = usec / 4, for usec not divisible by 4 the resulting
tick count times 4 falls strictly short of usec, and any v with the same
quotient by 4 (fitting in 32 bits after scaling) maps to the same tick
count. -/
theorem C4_usec_to_clk_truncates (usec v : Nat)
    (h : usec * FM_CPU < 2 ^ 32)
    (hv : v * FM_CPU < 2 ^ 32)
    (hq : v / 4 = usec / 4) :
    USEC_TO_CLK usec = usec * 16 / 64 ∧
    USEC_TO_CLK usec = usec / 4 ∧
    (usec % 4 ≠ 0 → USEC_TO_CLK usec * 4 < usec) ∧
    USEC_TO_CLK v = USEC_TO_CLK usec := by
  simp only [USEC_TO_CLK, FM_CPU, F_CPU, TIMER_PRESCALER] at *
  omega

theorem C4_usec_to_clk_truncates_witness :
    (6 * FM_CPU < 2 ^ 32 ∧ 7 * FM_CPU < 2 ^ 32 ∧ 7 / 4 = 6 / 4) ∧
    (USEC_TO_CLK 6 = 6 * 16 / 64 ∧
     USEC_TO_CLK 6 = 6 / 4 ∧
     (6 % 4 ≠ 0 → USEC_TO_CLK 6 * 4 < 6) ∧
     USEC_TO_CLK 7 = USEC_TO_CLK 6) :=
  ⟨⟨by decide, by decide, by decide⟩,
    C4_usec_to_clk_truncates 6 7 (by decide) (by decide) (by decide)⟩

/-- C8: the two unit-conversion macros agree on whole milliseconds: whenever
msec * 16000000 fits in 32 bits (msec ≤ 268), MSEC_TO_CLK msec equals
USEC_TO_CLK (1000 * msec) and both equal 250 * msec, so one millisecond is
exactly 250 timer ticks. -/
theorem C8_msec_usec_agree (msec : Nat) (h : msec * 16000000 < 2 ^ 32) :
    MSEC_TO_CLK msec = USEC_TO_CLK (1000 * msec) ∧
    MSEC_TO_CLK msec = 250 * msec ∧
    MSEC_TO_CLK 1 = 250 := by
  have hf : FM_CPU = 16 := by decide
  have h1 : msec % 2 ^ 32 = msec := Nat.mod_eq_of_lt (by omega)
  have h2 : msec * 16000000 % 2 ^ 32 = msec * 16000000 :=
    Nat.mod_eq_of_lt (by omega)
  have h3 : 1000 * msec % 2 ^ 32 = 1000 * msec := Nat.mod_eq_of_lt (by omega)
  have h4 : 1000 * msec * 16 % 2 ^ 32 = 1000 * msec * 16 :=
    Nat.mod_eq_of_lt (by omega)
  simp only [MSEC_TO_CLK, USEC_TO_CLK, F_CPU, TIMER_PRESCALER, hf, h1, h2, h3, h4]
  omega

theorem C8_msec_usec_agree_witness :
    7 * 16000000 < 2 ^ 32 ∧
    (MSEC_TO_CLK 7 = USEC_TO_CLK (1000 * 7) ∧
     MSEC_TO_CLK 7 = 250 * 7 ∧
     MSEC_TO_CLK 1 = 250) :=
  ⟨by decide, C8_msec_usec_agree 7 (by decide)⟩

/-- C10: MSEC_TO_CLK multiplies before dividing in 32-bit modular arithmetic:
for msec ≤ 268 the product does not wrap and MSEC_TO_CLK msec = 250 * msec,
while at msec = 269 the product 269 * 16000000 wraps modulo 2^32 to 9032704,
so MSEC_TO_CLK 269 = 141 ≠ 250 * 269. -/
theorem C10_msec_to_clk_wraps (msec : Nat) (h : msec ≤ 268) :
    MSEC_TO_CLK msec = msec * 16000000 % 2 ^ 32 / 64000 ∧
    MSEC_TO_CLK msec = 250 * msec ∧
    MSEC_TO_CLK 269 = 269 * 16000000 % 2 ^ 32 / 64000 ∧
    MSEC_TO_CLK 269 = 141 ∧
    MSEC_TO_CLK 269 ≠ 250 * 269 := by
  have h32 : msec % 2 ^ 32 = msec := Nat.mod_eq_of_lt (by omega)
  have h32b : msec * 16000000 % 2 ^ 32 = msec * 16000000 :=
    Nat.mod_eq_of_lt (by omega)
  refine ⟨?_, ?_, by decide, by decide, by decide⟩
  all_goals simp only [MSEC_TO_CLK, F_CPU, TIMER_PRESCALER, h32, h32b]
  all_goals omega

theorem C10_msec_to_clk_wraps_witness :
    268 ≤ 268 ∧
    (MSEC_TO_CLK 268 = 268 * 16000000 % 2 ^ 32 / 64000 ∧
     MSEC_TO_CLK 268 = 250 * 268 ∧
     MSEC_TO_CLK 269 = 269 * 16000000 % 2 ^ 32 / 64000 ∧
     MSEC_TO_CLK 269 = 141 ∧
     MSEC_TO_CLK 269 ≠ 250 * 269) :=
  ⟨by decide, C10_msec_to_clk_wraps 268 (by decide)⟩

/-- C5: CLI_TIMER both disables and acknowledges: from every register state,
after CLI_TIMER the interrupt-enable mask TIMSK1 is 0 and every pending
compare flag in TIFR1 is cleared (the write of 0xFF to TIFR1 clears all flag
bits), so no stale pending flag survives to re-fire on a later enable. -/
theorem C5_cli_timer_acknowledges (s : TimerRegs) :
    (CLI_TIMER s).timsk1 = 0 ∧ (CLI_TIMER s).tifr1 = 0 := by
  simp [CLI_TIMER, writeTIFR1, writeTIMSK1]

/-- C7: SEI_TIMER and CLI_TIMER are idempotent: from every starting register
state, running either one twice leaves the (TIFR1, TIMSK1) state equal to
running it once. -/
theorem C7_sei_cli_idempotent (s : TimerRegs) :
    SEI_TIMER (SEI_TIMER s) = SEI_TIMER s ∧
    CLI_TIMER (CLI_TIMER s) = CLI_TIMER s := by
  cases s
  constructor <;> simp [SEI_TIMER, CLI_TIMER, writeTIFR1, writeTIMSK1]

/-- C9: SEI_TIMER clears all pending timer flags (the TIFR1 = 0xFF write comes
before the TIMSK1 write) and then sets the enable mask to 2, so from every
starting register state a compare-match flag latched while disabled is
discarded at enable time: afterwards TIFR1 is 0 and TIMSK1 is 2. -/
theorem C9_sei_timer_discards_pending (s : TimerRegs) :
    SEI_TIMER s = writeTIMSK1 2 (writeTIFR1 0xFF s) ∧
    (SEI_TIMER s).tifr1 = 0 ∧
    (SEI_TIMER s).timsk1 = 2 := by
  refine ⟨rfl, ?_, rfl⟩
  simp [SEI_TIMER, writeTIFR1, writeTIMSK1]

/-- C1: for every clock state read in one critical section, u_now returns
accumulated_ms * 1000 plus the sampled hardware count times the tick period,
in unsigned 32-bit modular arithmetic; under the default configuration the
tick period CLK_CYCLES_PER_USEC is 4, so this is
m_now * 1000 + TCNT1 * 4 mod 2^32. -/
theorem C1_u_now_formula (s : ClockState) :
    u_now s = (m_now s * 1000 + s.tcnt1 % 2 ^ 16 * CLK_CYCLES_PER_USEC) % 2 ^ 32 ∧
    CLK_CYCLES_PER_USEC = 4 ∧
    u_now s = (m_now s * 1000 + s.tcnt1 % 2 ^ 16 * 4) % 2 ^ 32 :=
  ⟨rfl, rfl, rfl⟩

/-- C6: the millisecond accumulator (a 32-bit mtime_t) advanced by the handler
is monotonically non-decreasing except for a full 32-bit wraparound: a step
that stays below 2^32 adds exactly the increment, and the wrapping step
subtracts 2^32; the span before wraparound is 2^32 milliseconds, which lies
between 49.7 and 49.8 days. -/
theorem C6_m_now_wraparound (ms inc : Nat) (h : ms < 2 ^ 32) :
    (ms + inc < 2 ^ 32 → advance_ms ms inc = ms + inc) ∧
    (ms + inc < 2 ^ 32 → ms ≤ advance_ms ms inc) ∧
    (2 ^ 32 ≤ ms + inc → inc < 2 ^ 32 → advance_ms ms inc = ms + inc - 2 ^ 32) ∧
    2 ^ 32 = 4294967296 ∧
    497 * 86400000 ≤ 10 * 2 ^ 32 ∧ 10 * 2 ^ 32 < 498 * 86400000 := by
  unfold advance_ms
  refine ⟨fun hlt => Nat.mod_eq_of_lt hlt, ?_, ?_, by decide, by decide, by decide⟩
  · intro hlt
    rw [Nat.mod_eq_of_lt hlt]
    omega
  · intro hge hinc
    omega

theorem C6_m_now_wraparound_witness :
    (5 < 2 ^ 32) ∧
    ((5 + 1 < 2 ^ 32 → advance_ms 5 1 = 5 + 1) ∧
     (5 + 1 < 2 ^ 32 → 5 ≤ advance_ms 5 1) ∧
     (2 ^ 32 ≤ 5 + 1 → 1 < 2 ^ 32 → advance_ms 5 1 = 5 + 1 - 2 ^ 32) ∧
     2 ^ 32 = 4294967296 ∧
     497 * 86400000 ≤ 10 * 2 ^ 32 ∧ 10 * 2 ^ 32 < 498 * 86400000) :=
  ⟨by decide, C6_m_now_wraparound 5 1 (by decide)⟩

/-- C2 counterexample: the claim asserts that every delay D greater than
MAX_USEC occupies ceil(D / MAX_USEC) hardware intervals, but at the exact
multiple D = 524280 = 2 * 262140 the decomposition is 2 full intervals plus a
final partial interval, 3 intervals in total, while ceil(524280 / 262140)
is 2. -/
theorem C2_ceil_counterexample :
    MAX_USEC < 524280 ∧
    (schedule 524280).remaining_intervals = 2 ∧
    totalIntervals 524280 = 3 ∧
    (524280 + MAX_USEC - 1) / MAX_USEC = 2 ∧
    ¬ totalIntervals 524280 = (524280 + MAX_USEC - 1) / MAX_USEC := by
  refine ⟨by decide, ?_, by decide, by decide, by decide⟩
  simp [schedule, MAX_USEC_eq]

/-- C2 (amended): for every delay D greater than MAX_USEC that is not an
exact multiple of MAX_USEC, schedule decomposes D into
remaining_intervals = D / MAX_USEC full hardware cycles plus one final
partial interval of D mod MAX_USEC, totalling D / MAX_USEC + 1 =
ceil(D / MAX_USEC) hardware intervals, and the callback fires exactly once:
after that many interrupts the fired count is 1, the request is disarmed, and
further interrupts change nothing; in particular a 500000 us delay gives
1 full interval plus 1 partial interval of 237860 us. -/
theorem C2_decomposition (D : Nat) (h1 : MAX_USEC < D)
    (h2 : D % MAX_USEC ≠ 0) :
    (schedule D).remaining_intervals = D / MAX_USEC ∧
    (schedule D).final_interval = D % MAX_USEC ∧
    totalIntervals D = D / MAX_USEC + 1 ∧
    totalIntervals D = (D + MAX_USEC - 1) / MAX_USEC ∧
    run (totalIntervals D) (schedule D) =
      { remaining_intervals := 0, final_interval := D % MAX_USEC,
        fired := 1, armed := false } ∧
    (run (totalIntervals D) (schedule D)).fired = 1 ∧
    handleInterrupt (run (totalIntervals D) (schedule D)) =
      run (totalIntervals D) (schedule D) ∧
    (schedule 500000).remaining_intervals = 1 ∧
    (schedule 500000).final_interval = 237860 ∧
    totalIntervals 500000 = 2 := by
  have hrun := run_full_cycles (D / MAX_USEC) (D % MAX_USEC)
  have hceil : D / MAX_USEC + 1 = (D + MAX_USEC - 1) / MAX_USEC := by
    rw [MAX_USEC_eq] at *
    omega
  refine ⟨rfl, rfl, rfl, hceil, ?_, ?_, ?_, ?_, ?_, by decide⟩
  · exact hrun
  · rw [show run (totalIntervals D) (schedule D) = _ from hrun]
  · rw [show run (totalIntervals D) (schedule D) = _ from hrun]
    simp [handleInterrupt]
  · simp [schedule, MAX_USEC_eq]
  · simp [schedule, MAX_USEC_eq]

theorem C2_decomposition_witness :
    (MAX_USEC < 500000 ∧ 500000 % MAX_USEC ≠ 0) ∧
    ((schedule 500000).remaining_intervals = 500000 / MAX_USEC ∧
     (schedule 500000).final_interval = 500000 % MAX_USEC ∧
     totalIntervals 500000 = 500000 / MAX_USEC + 1 ∧
     totalIntervals 500000 = (500000 + MAX_USEC - 1) / MAX_USEC ∧
     run (totalIntervals 500000) (schedule 500000) =
       { remaining_intervals := 0, final_interval := 500000 % MAX_USEC,
         fired := 1, armed := false } ∧
     (run (totalIntervals 500000) (schedule 500000)).fired = 1 ∧
     handleInterrupt (run (totalIntervals 500000) (schedule 500000)) =
       run (totalIntervals 500000) (schedule 500000) ∧
     (schedule 500000).remaining_intervals = 1 ∧
     (schedule 500000).final_interval = 237860 ∧
     totalIntervals 500000 = 2) :=
  ⟨⟨by decide, by decide⟩, C2_decomposition 500000 (by decide) (by decide)⟩

end idOS
